import Mathlib

/-!
# OpenGLDemo: the bouncing-shape simulation step and the frame driver

A shallow embedding of `opeglldemo/opeglldemo/main.cpp`.

* `glm::vec2`, `glm::vec3` and `SimpleObject` are plain records.
* The C++ `float` is a type parameter `F`. The definitions only use the
  operations the source uses (`+`, `-`, `*`, unary `-`, `<`, the literals), so
  they can be read with any interpretation of these operations. Properties that
  need no algebra are proved for every such `F`; the ones that need algebra
  (`v * 0 = 0`, `|-v| = |v|`, decimal literals) are proved for every linearly
  ordered field, i.e. for exact arithmetic, and evaluated over `ℚ`.
* `F32` interprets the operations as the program's `float` does on finite
  values: IEEE-754 binary32, every operation rounded to nearest, ties to even.
  It is used where rounding decides the outcome.
* The GLFW / GLEW / OpenGL collaborators are an explicit environment `Env`
  (what the calls return) and an explicit trace of `Event`s (what `main` does).
-/

namespace OpenGLDemo

/-! ## Data model -/

/-- Two-component vector `glm::vec2`. -/
structure Vec2 (F : Type) where
  x : F
  y : F
deriving DecidableEq

/-- Three-component vector `glm::vec3`. -/
structure Vec3 (F : Type) where
  x : F
  y : F
  z : F
deriving DecidableEq

/-- Component-wise sum, `glm::vec2 + glm::vec2` (used by `position += ...`). -/
def Vec2.add {F : Type} [Add F] (a b : Vec2 F) : Vec2 F :=
  { x := a.x + b.x, y := a.y + b.y }

/-- Vector times scalar, `glm::vec2 * float`. -/
def Vec2.scale {F : Type} [Mul F] (a : Vec2 F) (k : F) : Vec2 F :=
  { x := a.x * k, y := a.y * k }

/-- Single-argument constructor `glm::vec2(s)`: both components are `s`. -/
def Vec2.splat {F : Type} (s : F) : Vec2 F :=
  { x := s, y := s }

/-- The class `SimpleObject`: its four public data members. -/
structure SimpleObject (F : Type) where
  vertices : List F
  position : Vec2 F
  velocity : Vec2 F
  color : Vec3 F
deriving DecidableEq

section Update

variable {F : Type} [Add F] [Mul F] [Neg F] [One F] [LT F]
  [∀ a b : F, Decidable (a < b)]

/-- The method `SimpleObject::update(float deltaTime)`:
```
position += velocity * deltaTime;
if (position.x > 1.0f || position.x < -1.0f) velocity.x = -velocity.x;
if (position.y > 1.0f || position.y < -1.0f) velocity.y = -velocity.y;
```
-/
def SimpleObject.update (self : SimpleObject F) (deltaTime : F) : SimpleObject F :=
  let position := self.position.add (self.velocity.scale deltaTime)
  let velocity := self.velocity
  let velocity : Vec2 F :=
    if position.x > 1 ∨ position.x < -1 then { velocity with x := -velocity.x } else velocity
  let velocity : Vec2 F :=
    if position.y > 1 ∨ position.y < -1 then { velocity with y := -velocity.y } else velocity
  { self with position := position, velocity := velocity }

end Update

/-! ## The frame driver (`main`) -/

/-- What `main` does that is visible from outside, in program order. -/
inductive Event (F : Type) where
  | cerr (msg : String)
  | glfwTerminate
  | glfwMakeContextCurrent
  | rendererCtor
  | glClear
  | update (before : SimpleObject F) (deltaTime : F)
  | render (object : SimpleObject F)
  | glfwSwapBuffers
  | glfwPollEvents
  | glfwDestroyWindow

/-- Events that only the body of the frame loop produces. -/
def Event.inFrameLoop {F : Type} : Event F → Bool
  | .glClear => true
  | .update _ _ => true
  | .render _ => true
  | .glfwSwapBuffers => true
  | .glfwPollEvents => true
  | _ => false

/-- The locals of `main` that live across iterations of the frame loop. -/
structure LoopState (F : Type) where
  lastFrame : F
  triangle : SimpleObject F
  square : SimpleObject F

/-- What the collaborators answer during one run of `main`.
`glfwInit` is the `int` returned by `glfwInit()` (`0` is failure);
`glfwCreateWindow` is the returned window handle (`none` is the null pointer);
`glewInit` is the code returned by `glewInit()`;
`frames` lists the value of `glfwGetTime()` in each iteration of the loop, one
entry per iteration for which `glfwWindowShouldClose` answered false. -/
structure Env (F : Type) where
  glfwInit : Int
  glfwCreateWindow : Option Nat
  glewInit : Nat
  frames : List F

/-- The constant `GLEW_OK` of `GL/glew.h`. -/
def GLEW_OK : Nat := 0

/-- The result of a run of `main`: exit status, trace, and the loop state at
the end when the loop was reached. -/
structure Outcome (F : Type) where
  exit : Int
  trace : List (Event F)
  final : Option (LoopState F)

section Driver

variable {F : Type} [Add F] [Sub F] [Mul F] [Neg F] [Zero F] [One F] [OfScientific F] [LT F]
  [∀ a b : F, Decidable (a < b)]

/-- The object `triangle` as `main` constructs it. -/
def triangle : SimpleObject F :=
  { vertices := [-0.1, -0.1, 0.1, -0.1, 0.0, 0.1]
    position := Vec2.splat 0
    velocity := { x := 0.3, y := 0.5 }
    color := { x := 1, y := 0, z := 0 } }

/-- The object `square` as `main` constructs it. -/
def square : SimpleObject F :=
  { vertices := [-0.1, -0.1, 0.1, -0.1, 0.1, 0.1, -0.1, 0.1]
    position := { x := 0.5, y := -0.5 }
    velocity := { x := -0.4, y := 0.3 }
    color := { x := 0, y := 1, z := 0 } }

/-- The loop state when the `while` is first reached: `float lastFrame = 0.0f;`
and the two objects as constructed. -/
def initialState : LoopState F :=
  { lastFrame := 0, triangle := triangle, square := square }

/-- The value of `deltaTime` in an iteration: `currentFrame - lastFrame`. -/
def frameDeltaTime (st : LoopState F) (currentFrame : F) : F :=
  currentFrame - st.lastFrame

/-- One iteration of the body of the `while` loop, `currentFrame` being what
`glfwGetTime()` returned. -/
def frame (st : LoopState F) (currentFrame : F) : LoopState F × List (Event F) :=
  let deltaTime := frameDeltaTime st currentFrame
  let lastFrame := currentFrame
  let triangle := st.triangle.update deltaTime
  let square := st.square.update deltaTime
  ({ lastFrame := lastFrame, triangle := triangle, square := square },
   [Event.glClear,
    Event.update st.triangle deltaTime, Event.update st.square deltaTime,
    Event.render triangle, Event.render square,
    Event.glfwSwapBuffers, Event.glfwPollEvents])

/-- The `while (!glfwWindowShouldClose(window))` loop over the clock readings
of its iterations. -/
def loop (st : LoopState F) : List F → LoopState F × List (Event F)
  | [] => (st, [])
  | t :: ts =>
    let r := frame st t
    let rest := loop r.1 ts
    (rest.1, r.2 ++ rest.2)

/-- The function `main`. -/
def main (env : Env F) : Outcome F :=
  if env.glfwInit = 0 then
    { exit := -1, trace := [Event.cerr ("Failed to initialize GLFW")], final := none }
  else
    match env.glfwCreateWindow with
    | none =>
      { exit := -1
        trace := [Event.cerr ("Failed to create GLFW window"), Event.glfwTerminate]
        final := none }
    | some _ =>
      if env.glewInit ≠ GLEW_OK then
        { exit := -1
          trace := [Event.glfwMakeContextCurrent, Event.cerr ("Failed to initialize GLEW")]
          final := none }
      else
        let r := loop initialState env.frames
        { exit := 0
          trace := [Event.glfwMakeContextCurrent, Event.rendererCtor] ++ r.2 ++
            [Event.glfwDestroyWindow, Event.glfwTerminate]
          final := some r.1 }

end Driver

/-! ## The `float` of the program: binary32 with round-to-nearest-even

A finite binary32 value is `mant * 2 ^ exp` with `2^23 ≤ |mant| < 2^24`, or
zero. Each arithmetic operation computes the exact result and rounds it to the
nearest such value, ties going to the even significand. Overflow to infinity,
subnormal numbers, NaN and the sign of zero are not modelled (the exponent is
unbounded): on operands and results of magnitude in `[2^-126, 2^128)` the
operations below are those of the hardware. -/

/-- A finite binary32 value `mant * 2 ^ exp`, kept with a 24-bit significand
(`2^23 ≤ |mant| < 2^24`) or as zero (`mant = 0`, `exp = 0`). -/
structure F32 where
  mant : Int
  exp : Int
deriving DecidableEq

/-- The quotient `a / b` rounded to the nearest integer, ties to even. -/
def roundNearestEven (a b : Nat) : Nat :=
  let q := a / b
  let r := a % b
  if 2 * r < b then q
  else if b < 2 * r then q + 1
  else if q % 2 = 0 then q else q + 1

/-- Floor of the binary logarithm, by repeated halving (`0` for `n < 2`);
`fuel = n` halvings are always enough. -/
def log2Fuel : Nat → Nat → Nat
  | 0, _ => 0
  | fuel + 1, n => if n < 2 then 0 else log2Fuel fuel (n / 2) + 1

/-- The exponent `e` of the unit in the last place of `n / d` (both positive):
the one with `2^23 ≤ (n / d) / 2^e < 2^24`. -/
def ulpExponent (n d : Nat) : Int :=
  let e0 : Int := (log2Fuel n n : Int) - (log2Fuel d d : Int) - 23
  if 2 ^ 23 * (d * 2 ^ e0.toNat) ≤ n * 2 ^ (-e0).toNat then e0 else e0 - 1

/-- The binary32 value nearest to `± n / d`, ties to even. -/
def F32.round (negative : Bool) (n d : Nat) : F32 :=
  if n = 0 then { mant := 0, exp := 0 }
  else
    let e := ulpExponent n d
    let m := roundNearestEven (n * 2 ^ (-e).toNat) (d * 2 ^ e.toNat)
    let r : F32 :=
      if m = 2 ^ 24 then { mant := 2 ^ 23, exp := e + 1 } else { mant := m, exp := e }
    if negative then { r with mant := -r.mant } else r

/-- The binary32 value nearest to the exact number `m * 2 ^ e`. -/
def F32.ofDyadic (m e : Int) : F32 :=
  F32.round (decide (m < 0)) (m.natAbs * 2 ^ e.toNat) (2 ^ (-e).toNat)

/-- Two values brought to a common exponent: the two significands and that
exponent. -/
def F32.aligned (a b : F32) : Int × Int × Int :=
  let e := min a.exp b.exp
  (a.mant * 2 ^ (a.exp - e).toNat, b.mant * 2 ^ (b.exp - e).toNat, e)

/-- The rational number a binary32 value stands for. -/
def F32.toRat (a : F32) : ℚ := a.mant * 2 ^ a.exp

/-- Float addition: the exact sum, rounded. -/
instance : Add F32 :=
  ⟨fun a b => F32.ofDyadic ((F32.aligned a b).1 + (F32.aligned a b).2.1) (F32.aligned a b).2.2⟩

/-- Float multiplication: the exact product, rounded. -/
instance : Mul F32 := ⟨fun a b => F32.ofDyadic (a.mant * b.mant) (a.exp + b.exp)⟩

/-- Float negation: exact. -/
instance : Neg F32 := ⟨fun a => { a with mant := -a.mant }⟩

instance : Zero F32 := ⟨{ mant := 0, exp := 0 }⟩

instance : One F32 := ⟨{ mant := 2 ^ 23, exp := -23 }⟩

/-- Comparison of the exact values. -/
instance : LT F32 := ⟨fun a b => (F32.aligned a b).1 < (F32.aligned a b).2.1⟩

instance : LE F32 := ⟨fun a b => (F32.aligned a b).1 ≤ (F32.aligned a b).2.1⟩

instance (a b : F32) : Decidable (a < b) :=
  inferInstanceAs (Decidable ((F32.aligned a b).1 < (F32.aligned a b).2.1))

instance (a b : F32) : Decidable (a ≤ b) :=
  inferInstanceAs (Decidable ((F32.aligned a b).1 ≤ (F32.aligned a b).2.1))

/-- A decimal literal with the suffix `f`: the binary32 value nearest to it. -/
instance : OfScientific F32 :=
  ⟨fun m s e => if s then F32.round false m (10 ^ e) else F32.round false (m * 10 ^ e) 1⟩

/-! ## Concrete inputs used below -/

/-- A shape at `(0.95, 0)` moving right with velocity `(0.5, 0)`. -/
def shapeNearRight : SimpleObject ℚ :=
  { vertices := [], position := { x := 0.95, y := 0 }, velocity := { x := 0.5, y := 0 },
    color := { x := 1, y := 0, z := 0 } }

/-- A shape already outside the range on the x axis: position `(2, 0)`,
velocity `(1, 0)`. -/
def shapeOutside : SimpleObject ℚ :=
  { vertices := [], position := { x := 2, y := 0 }, velocity := { x := 1, y := 0 },
    color := { x := 1, y := 0, z := 0 } }

/-- A shape near the top-right corner moving towards it. -/
def shapeNearCorner : SimpleObject ℚ :=
  { vertices := [], position := { x := 0.95, y := 0.95 }, velocity := { x := 0.5, y := 0.5 },
    color := { x := 1, y := 0, z := 0 } }

/-- A run in which `glfwInit` fails. -/
def envInitFails : Env ℚ :=
  { glfwInit := 0, glfwCreateWindow := some 1, glewInit := GLEW_OK, frames := [1, 2] }

/-- A run in which start-up succeeds and the window is closed after two
frames, at clock readings `1` and `2`. -/
def envTwoFrames : Env ℚ :=
  { glfwInit := 1, glfwCreateWindow := some 1, glewInit := GLEW_OK, frames := [1, 2] }

/-! ## Basic facts about `update` (any interpretation of the arithmetic) -/

section UpdateFacts

variable {F : Type} [Add F] [Mul F] [Neg F] [One F] [LT F]
  [∀ a b : F, Decidable (a < b)]

/-- The test of the first `if` of `update`, on the already moved coordinate. -/
def outOfRange (p : F) : Prop := p > 1 ∨ p < -1

instance (p : F) : Decidable (outOfRange p) := by
  unfold outOfRange; infer_instance

theorem update_position_x (s : SimpleObject F) (dt : F) :
    (s.update dt).position.x = s.position.x + s.velocity.x * dt := rfl

theorem update_position_y (s : SimpleObject F) (dt : F) :
    (s.update dt).position.y = s.position.y + s.velocity.y * dt := rfl

theorem update_vertices (s : SimpleObject F) (dt : F) :
    (s.update dt).vertices = s.vertices := rfl

theorem update_color (s : SimpleObject F) (dt : F) :
    (s.update dt).color = s.color := rfl

theorem update_velocity_x (s : SimpleObject F) (dt : F) :
    (s.update dt).velocity.x =
      if outOfRange (s.position.x + s.velocity.x * dt) then -s.velocity.x else s.velocity.x := by
  simp only [SimpleObject.update, Vec2.add, Vec2.scale, outOfRange]
  split_ifs <;> rfl

theorem update_velocity_y (s : SimpleObject F) (dt : F) :
    (s.update dt).velocity.y =
      if outOfRange (s.position.y + s.velocity.y * dt) then -s.velocity.y else s.velocity.y := by
  simp only [SimpleObject.update, Vec2.add, Vec2.scale, outOfRange]
  split_ifs <;> rfl

end UpdateFacts

/-! ## The simulation step: claims that hold for any arithmetic -/

section GenericClaims

variable {F : Type} [Add F] [Mul F] [Neg F] [One F] [LT F]
  [∀ a b : F, Decidable (a < b)]

/-- C1: for every shape and every `dt`, `update` sets the new position to the
old position plus the old velocity times `dt`, component by component; the
velocity used is the one the shape had on entry, before any reflection of this
step. -/
theorem C1_update_position (s : SimpleObject F) (dt : F) :
    (s.update dt).position.x = s.position.x + s.velocity.x * dt ∧
    (s.update dt).position.y = s.position.y + s.velocity.y * dt ∧
    (s.update dt).position = s.position.add (s.velocity.scale dt) :=
  ⟨rfl, rfl, rfl⟩

/-- C6: the two axes of `update` are not coupled. Two shapes that agree on
`position.x` and `velocity.x` get the same new `position.x` and `velocity.x`
whatever their `y` components are, and symmetrically for `y`; and when both new
coordinates fall outside `[-1, 1]` in one step, both velocity components are
negated. -/
theorem C6_axes_independent (s t : SimpleObject F) (dt : F) :
    (s.position.x = t.position.x → s.velocity.x = t.velocity.x →
      (s.update dt).position.x = (t.update dt).position.x ∧
      (s.update dt).velocity.x = (t.update dt).velocity.x) ∧
    (s.position.y = t.position.y → s.velocity.y = t.velocity.y →
      (s.update dt).position.y = (t.update dt).position.y ∧
      (s.update dt).velocity.y = (t.update dt).velocity.y) ∧
    (((s.update dt).position.x > 1 ∨ (s.update dt).position.x < -1) →
     ((s.update dt).position.y > 1 ∨ (s.update dt).position.y < -1) →
      (s.update dt).velocity.x = -s.velocity.x ∧
      (s.update dt).velocity.y = -s.velocity.y) := by
  refine ⟨fun hp hv => ?_, fun hp hv => ?_, fun hx hy => ?_⟩
  · rw [update_position_x, update_position_x, update_velocity_x, update_velocity_x, hp, hv]
    exact ⟨rfl, rfl⟩
  · rw [update_position_y, update_position_y, update_velocity_y, update_velocity_y, hp, hv]
    exact ⟨rfl, rfl⟩
  · rw [update_position_x] at hx
    rw [update_position_y] at hy
    rw [update_velocity_x, update_velocity_y]
    exact ⟨if_pos hx, if_pos hy⟩

/-- C6 at the shape at `(0.95, 0.95)` with velocity `(0.5, 0.5)` and
`dt = 0.2`: both coordinates leave the range and both components flip. -/
theorem C6_axes_independent_witness :
    ((shapeNearCorner.update 0.2).position.x > 1 ∨
      (shapeNearCorner.update 0.2).position.x < -1) ∧
    ((shapeNearCorner.update 0.2).position.y > 1 ∨
      (shapeNearCorner.update 0.2).position.y < -1) ∧
    (shapeNearCorner.update 0.2).velocity.x = -shapeNearCorner.velocity.x ∧
    (shapeNearCorner.update 0.2).velocity.y = -shapeNearCorner.velocity.y := by
  have hx : (shapeNearCorner.update 0.2).position.x > 1 ∨
      (shapeNearCorner.update 0.2).position.x < -1 := by
    left; rw [update_position_x]; simp only [shapeNearCorner]; norm_num
  have hy : (shapeNearCorner.update 0.2).position.y > 1 ∨
      (shapeNearCorner.update 0.2).position.y < -1 := by
    left; rw [update_position_y]; simp only [shapeNearCorner]; norm_num
  exact ⟨hx, hy, (C6_axes_independent shapeNearCorner shapeNearCorner 0.2).2.2 hx hy⟩

/-- C7: for every shape and every `dt`, `update` leaves the vertices (hence
their number) and the color as they were; the state after the call is the state
before it with only `position` and `velocity` replaced. -/
theorem C7_update_frame (s : SimpleObject F) (dt : F) :
    (s.update dt).vertices = s.vertices ∧
    (s.update dt).vertices.length = s.vertices.length ∧
    (s.update dt).color = s.color ∧
    s.update dt =
      { s with position := (s.update dt).position, velocity := (s.update dt).velocity } :=
  ⟨rfl, rfl, rfl, rfl⟩

end GenericClaims

/-! ## The simulation step: claims in exact arithmetic -/

section ExactClaims

variable {F : Type} [LinearOrderedField F]

theorem outOfRange_iff (p : F) : outOfRange p ↔ ¬ (-1 ≤ p ∧ p ≤ 1) := by
  unfold outOfRange
  constructor
  · rintro (h | h) ⟨h1, h2⟩
    · exact absurd h (not_lt.mpr h2)
    · exact absurd h (not_lt.mpr h1)
  · intro h
    by_contra hc
    rw [not_or, not_lt, not_lt] at hc
    exact h ⟨hc.2, hc.1⟩

/-- C2: for every shape and every `dt`, when the moved `position.x` is greater
than `1` or less than `-1` the resulting `velocity.x` is the negation of the
input `velocity.x`, and likewise for `y`. From `(0.95, 0)` with velocity
`(0.5, 0)` and `dt = 0.2` the result is position `(1.05, 0)`, velocity
`(-0.5, 0)`; from `(-0.95, 0)` with velocity `(-0.5, 0)` and `dt = 0.2` it is
position `(-1.05, 0)`, velocity `(0.5, 0)`. -/
theorem C2_reflect_outside (s : SimpleObject F) (dt : F) :
    (((s.update dt).position.x > 1 ∨ (s.update dt).position.x < -1) →
      (s.update dt).velocity.x = -s.velocity.x) ∧
    (((s.update dt).position.y > 1 ∨ (s.update dt).position.y < -1) →
      (s.update dt).velocity.y = -s.velocity.y) ∧
    (({ s with position := { x := 0.95, y := 0 },
               velocity := { x := 0.5, y := 0 } } : SimpleObject F).update 0.2).position
        = { x := 1.05, y := 0 } ∧
    (({ s with position := { x := 0.95, y := 0 },
               velocity := { x := 0.5, y := 0 } } : SimpleObject F).update 0.2).velocity
        = { x := -0.5, y := 0 } ∧
    (({ s with position := { x := -0.95, y := 0 },
               velocity := { x := -0.5, y := 0 } } : SimpleObject F).update 0.2).position
        = { x := -1.05, y := 0 } ∧
    (({ s with position := { x := -0.95, y := 0 },
               velocity := { x := -0.5, y := 0 } } : SimpleObject F).update 0.2).velocity
        = { x := 0.5, y := 0 } := by
  refine ⟨fun hx => ?_, fun hy => ?_, ?_, ?_, ?_, ?_⟩
  · rw [update_position_x] at hx
    rw [update_velocity_x]
    exact if_pos hx
  · rw [update_position_y] at hy
    rw [update_velocity_y]
    exact if_pos hy
  · simp only [SimpleObject.update, Vec2.add, Vec2.scale]
    norm_num
  · simp only [SimpleObject.update, Vec2.add, Vec2.scale]
    norm_num
  · simp only [SimpleObject.update, Vec2.add, Vec2.scale]
    norm_num
  · simp only [SimpleObject.update, Vec2.add, Vec2.scale]
    norm_num

/-- C3: for every shape and every `dt`, when the moved `position.x` lies in
the closed range `[-1, 1]`, the end points `-1` and `1` included, `velocity.x`
is left as it was, and likewise for `y`. From `(0, 0)` with velocity
`(0.3, 0.5)` and `dt = 1` the result is position `(0.3, 0.5)` and velocity
`(0.3, 0.5)`. -/
theorem C3_no_reflect_inside (s : SimpleObject F) (dt : F) :
    ((-1 ≤ (s.update dt).position.x ∧ (s.update dt).position.x ≤ 1) →
      (s.update dt).velocity.x = s.velocity.x) ∧
    ((-1 ≤ (s.update dt).position.y ∧ (s.update dt).position.y ≤ 1) →
      (s.update dt).velocity.y = s.velocity.y) ∧
    (({ s with position := { x := 0, y := 0 },
               velocity := { x := 0.3, y := 0.5 } } : SimpleObject F).update 1).position
        = { x := 0.3, y := 0.5 } ∧
    (({ s with position := { x := 0, y := 0 },
               velocity := { x := 0.3, y := 0.5 } } : SimpleObject F).update 1).velocity
        = { x := 0.3, y := 0.5 } := by
  refine ⟨fun hx => ?_, fun hy => ?_, ?_, ?_⟩
  · rw [update_position_x] at hx
    rw [update_velocity_x, if_neg ((outOfRange_iff _).not.mpr (not_not.mpr hx))]
  · rw [update_position_y] at hy
    rw [update_velocity_y, if_neg ((outOfRange_iff _).not.mpr (not_not.mpr hy))]
  · simp only [SimpleObject.update, Vec2.add, Vec2.scale]
    norm_num
  · simp only [SimpleObject.update, Vec2.add, Vec2.scale]
    norm_num

/-- C4: for every `dt ≥ 0` and every shape that starts with `|position.x| ≤ 1`
and `|position.y| ≤ 1`, the absolute values of `velocity.x` and `velocity.y`
after `update` are the ones before it: a reflection flips the sign and never
changes the magnitude. -/
theorem C4_speed_preserved (s : SimpleObject F) (dt : F) (_hdt : 0 ≤ dt)
    (_hx : |s.position.x| ≤ 1) (_hy : |s.position.y| ≤ 1) :
    |(s.update dt).velocity.x| = |s.velocity.x| ∧
    |(s.update dt).velocity.y| = |s.velocity.y| := by
  rw [update_velocity_x, update_velocity_y]
  constructor
  · split_ifs
    · exact abs_neg _
    · rfl
  · split_ifs
    · exact abs_neg _
    · rfl

/-- C4 at a reflecting step: the shape at `(0.95, 0)` with velocity `(0.5, 0)`
and `dt = 0.2`. -/
theorem C4_speed_preserved_witness :
    (0 : ℚ) ≤ 0.2 ∧ |shapeNearRight.position.x| ≤ 1 ∧ |shapeNearRight.position.y| ≤ 1 ∧
    (shapeNearRight.update 0.2).velocity.x = -0.5 ∧
    |(shapeNearRight.update 0.2).velocity.x| = |shapeNearRight.velocity.x| ∧
    |(shapeNearRight.update 0.2).velocity.y| = |shapeNearRight.velocity.y| := by
  have h0 : (0 : ℚ) ≤ 0.2 := by norm_num
  have hx : |shapeNearRight.position.x| ≤ 1 := by
    simp only [shapeNearRight]; rw [abs_le]; norm_num
  have hy : |shapeNearRight.position.y| ≤ 1 := by
    simp only [shapeNearRight]; norm_num
  refine ⟨h0, hx, hy, ?_, C4_speed_preserved shapeNearRight 0.2 h0 hx hy⟩
  rw [update_velocity_x]
  simp only [shapeNearRight, outOfRange]
  norm_num

theorem update_zero_position (s : SimpleObject F) : (s.update 0).position = s.position := by
  have px : s.position.x + s.velocity.x * 0 = s.position.x := by ring
  have py : s.position.y + s.velocity.y * 0 = s.position.y := by ring
  simp only [SimpleObject.update, Vec2.add, Vec2.scale, px, py]

/-- C5 fails for a shape that is already outside the range: at position
`(2, 0)` with velocity `(1, 0)`, `update` with `dt = 0` keeps the position and
turns the velocity into `(-1, 0)`. -/
theorem C5_counterexample :
    (shapeOutside.update 0).position = shapeOutside.position ∧
    shapeOutside.velocity = { x := 1, y := 0 } ∧
    (shapeOutside.update 0).velocity = { x := -1, y := 0 } ∧
    ¬ ((shapeOutside.update 0).position = shapeOutside.position ∧
       (shapeOutside.update 0).velocity = shapeOutside.velocity) := by
  have hv : (shapeOutside.update 0).velocity = { x := -1, y := 0 } := by
    simp only [shapeOutside, SimpleObject.update, Vec2.add, Vec2.scale]
    norm_num
  refine ⟨?_, rfl, hv, ?_⟩
  · simp only [shapeOutside, SimpleObject.update, Vec2.add, Vec2.scale]
    norm_num
  · rintro ⟨-, h⟩
    rw [hv] at h
    have hx := congrArg Vec2.x h
    simp only [shapeOutside] at hx
    norm_num at hx

/-- C5 (amended): for every shape, `update` with `dt = 0` leaves the position
as it was; it leaves `velocity.x` as it was when `position.x` lies in
`[-1, 1]` and negates it when `position.x` is outside, and likewise for `y`. -/
theorem C5_update_zero (s : SimpleObject F) :
    (s.update 0).position = s.position ∧
    ((-1 ≤ s.position.x ∧ s.position.x ≤ 1) → (s.update 0).velocity.x = s.velocity.x) ∧
    ((-1 ≤ s.position.y ∧ s.position.y ≤ 1) → (s.update 0).velocity.y = s.velocity.y) ∧
    ((s.position.x > 1 ∨ s.position.x < -1) → (s.update 0).velocity.x = -s.velocity.x) ∧
    ((s.position.y > 1 ∨ s.position.y < -1) → (s.update 0).velocity.y = -s.velocity.y) := by
  have px : s.position.x + s.velocity.x * 0 = s.position.x := by ring
  have py : s.position.y + s.velocity.y * 0 = s.position.y := by ring
  refine ⟨?_, fun hx => ?_, fun hy => ?_, fun hx => ?_, fun hy => ?_⟩
  · simp only [SimpleObject.update, Vec2.add, Vec2.scale, px, py]
  · rw [update_velocity_x, px, if_neg ((outOfRange_iff _).not.mpr (not_not.mpr hx))]
  · rw [update_velocity_y, py, if_neg ((outOfRange_iff _).not.mpr (not_not.mpr hy))]
  · rw [update_velocity_x, px]
    exact if_pos hx
  · rw [update_velocity_y, py]
    exact if_pos hy

/-- C5 (amended) at two shapes: one inside the range, which `update 0` leaves
whole, and one outside, whose `velocity.x` is negated. -/
theorem C5_update_zero_witness :
    (shapeNearRight.update 0).position = shapeNearRight.position ∧
    (shapeNearRight.update 0).velocity.x = shapeNearRight.velocity.x ∧
    (shapeOutside.update 0).velocity.x = -shapeOutside.velocity.x := by
  refine ⟨(C5_update_zero shapeNearRight).1, (C5_update_zero shapeNearRight).2.1 ?_,
    (C5_update_zero shapeOutside).2.2.2.1 ?_⟩
  · simp only [shapeNearRight]; norm_num
  · simp only [shapeOutside]; norm_num

end ExactClaims

/-! ## The frame driver -/

section DriverClaims

variable {F : Type} [Add F] [Sub F] [Mul F] [Neg F] [Zero F] [One F] [OfScientific F] [LT F]
  [∀ a b : F, Decidable (a < b)]

/-- C9: when a start-up step fails (`glfwInit` returns false, the window is
null, or `glewInit` does not return `GLEW_OK`), `main` returns a non-zero
status without reaching the frame loop: its trace holds no event of the loop
body, so no update and no draw, and no loop state exists. `main` returns `0`
exactly when all three steps succeeded. -/
theorem C9_startup_failure (env : Env F) :
    ((env.glfwInit = 0 ∨ env.glfwCreateWindow = none ∨ env.glewInit ≠ GLEW_OK) →
      (main env).exit ≠ 0 ∧ (main env).exit = -1 ∧ (main env).final = none ∧
      ∀ e ∈ (main env).trace, e.inFrameLoop = false) ∧
    ((main env).exit = 0 ↔
      (env.glfwInit ≠ 0 ∧ env.glfwCreateWindow ≠ none ∧ env.glewInit = GLEW_OK)) := by
  unfold main
  by_cases h1 : env.glfwInit = 0
  · simp [h1, Event.inFrameLoop]
  · cases hw : env.glfwCreateWindow with
    | none => simp [h1, Event.inFrameLoop]
    | some w =>
      by_cases h3 : env.glewInit = GLEW_OK
      · simp [h1, h3]
      · simp [h1, h3, Event.inFrameLoop]

/-- C9 at two runs: one where `glfwInit` fails, which exits with `-1`, and one
where start-up succeeds, which exits with `0`. -/
theorem C9_startup_failure_witness :
    (main envInitFails).exit = -1 ∧ (main envInitFails).final = none ∧
    (main envTwoFrames).exit = 0 :=
  ⟨((C9_startup_failure envInitFails).1 (Or.inl rfl)).2.1,
   ((C9_startup_failure envInitFails).1 (Or.inl rfl)).2.2.1,
   (C9_startup_failure envTwoFrames).2.mpr
     ⟨by simp [envTwoFrames], by simp [envTwoFrames], rfl⟩⟩

end DriverClaims

section FirstFrame

variable {F : Type} [LinearOrderedField F]

/-- C8 fails: when the clock reads `1` at the first iteration, the `dt` of the
first frame is `1`, and the triangle, constructed at `(0, 0)`, is at
`(0.3, 0.5)` after that frame. -/
theorem C8_counterexample :
    frameDeltaTime (initialState : LoopState ℚ) 1 = 1 ∧
    frameDeltaTime (initialState : LoopState ℚ) 1 ≠ 0 ∧
    (triangle : SimpleObject ℚ).position = { x := 0, y := 0 } ∧
    (frame (initialState : LoopState ℚ) 1).1.triangle.position = { x := 0.3, y := 0.5 } ∧
    (frame (initialState : LoopState ℚ) 1).1.triangle.position ≠
      (triangle : SimpleObject ℚ).position := by
  have hp : (frame (initialState : LoopState ℚ) 1).1.triangle.position
      = { x := 0.3, y := 0.5 } := by
    simp only [frame, frameDeltaTime, initialState, triangle, Vec2.splat, SimpleObject.update,
      Vec2.add, Vec2.scale]
    norm_num
  refine ⟨?_, ?_, rfl, hp, ?_⟩
  · simp only [frameDeltaTime, initialState]; norm_num
  · simp only [frameDeltaTime, initialState]; norm_num
  · rw [hp]
    intro h
    have hx := congrArg Vec2.x h
    simp only [triangle, Vec2.splat] at hx
    norm_num at hx

/-- C8 (amended): on the first frame of the loop the `dt` passed to `update`
for both shapes is the clock reading `t` of that frame (`lastFrame` starts at
`0`), so after the first frame each shape is at its constructed position plus
its velocity times `t`; it is at its constructed position when `t = 0`. -/
theorem C8_first_frame (t : F) (ts : List F) :
    frameDeltaTime (initialState : LoopState F) t = t ∧
    (loop (initialState : LoopState F) (t :: ts)).2 =
      (frame (initialState : LoopState F) t).2 ++
        (loop (frame (initialState : LoopState F) t).1 ts).2 ∧
    (frame (initialState : LoopState F) t).1.triangle = (triangle : SimpleObject F).update t ∧
    (frame (initialState : LoopState F) t).1.square = (square : SimpleObject F).update t ∧
    (frame (initialState : LoopState F) t).1.triangle.position
      = { x := 0 + 0.3 * t, y := 0 + 0.5 * t } ∧
    (frame (initialState : LoopState F) t).1.square.position
      = { x := 0.5 + -0.4 * t, y := -0.5 + 0.3 * t } ∧
    (t = 0 →
      (frame (initialState : LoopState F) t).1.triangle.position
        = (triangle : SimpleObject F).position ∧
      (frame (initialState : LoopState F) t).1.square.position
        = (square : SimpleObject F).position) := by
  have hdt : frameDeltaTime (initialState : LoopState F) t = t := by
    simp only [frameDeltaTime, initialState, sub_zero]
  have htri : (frame (initialState : LoopState F) t).1.triangle
      = (triangle : SimpleObject F).update t := by
    simp only [frame, hdt]; rfl
  have hsq : (frame (initialState : LoopState F) t).1.square
      = (square : SimpleObject F).update t := by
    simp only [frame, hdt]; rfl
  refine ⟨hdt, rfl, htri, hsq, ?_, ?_, fun h0 => ?_⟩
  · rw [htri]; rfl
  · rw [hsq]; rfl
  · subst h0
    rw [htri, hsq]
    exact ⟨(update_zero_position _), (update_zero_position _)⟩

end FirstFrame

/-! ## Overshoot and the step after it -/

section Overshoot

theorem log2Fuel_eq_log2 (fuel n : Nat) (h : n ≤ fuel) : log2Fuel fuel n = Nat.log2 n := by
  induction fuel generalizing n with
  | zero =>
    have hn : n = 0 := Nat.le_zero.mp h
    subst hn
    rw [Nat.log2]
    simp [log2Fuel]
  | succ k ih =>
    rw [Nat.log2]
    by_cases h2 : n < 2
    · simp [log2Fuel, h2, Nat.not_le.mpr h2]
    · have h2le : 2 ≤ n := Nat.not_lt.mp h2
      have hk : n / 2 ≤ k := by omega
      simp [log2Fuel, h2, h2le, ih (n / 2) hk]

/-- The values named in the float traces below, as rational numbers. -/
theorem F32.toRat_trace_values :
    F32.toRat { mant := 15938355, exp := -24 } = 15938355 / 16777216 ∧
    F32.toRat { mant := 15938354, exp := -24 } = 7969177 / 8388608 ∧
    F32.toRat { mant := 10485762, exp := -22 } = 5 / 2 + 1 / 2097152 ∧
    F32.toRat { mant := 8388609, exp := -23 } = 1 + 1 / 8388608 ∧
    F32.toRat { mant := 12582915, exp := -23 } = 3 / 2 + 3 / 8388608 := by
  simp only [F32.toRat]
  norm_num

end Overshoot

end OpenGLDemo
